import Mathlib

/-!
Verification of `duplicacy-wrapper.py` (a wrapper for the duplicacy CLI that
logs summary notifications) against its natural-language specification.

The script is shallowly embedded: every regex used by the script is simple
enough that its Python semantics (leftmost match, greedy quantifiers over
rigid whitespace/word-character boundaries) is deterministic, so each regex is
translated to an executable scanning function over `List Char`.  Output lines
are modelled with their trailing newline stripped; on such lines Python's `$`
anchor (end of string or just before a trailing newline) coincides with the
end of the list and `.` (any character except newline) with any character.
`\w`, `\s` and `\d` are modelled by their ASCII meaning, which is what
duplicacy log lines contain.
-/

/-- ASCII model of Python regex `\w` (word character). -/
def isWordChar (c : Char) : Bool :=
  c.isAlphanum || c = '_'

/-- ASCII model of Python regex `\s` (whitespace). -/
def isSpaceChar (c : Char) : Bool :=
  c = ' ' || c = '\t' || c = '\n' || c = '\r' || c = '\x0b' || c = '\x0c'

/-- ASCII model of Python regex `\d` (decimal digit). -/
def isDigitChar (c : Char) : Bool :=
  c.isDigit

/-- `eatLit pat l = some r` iff `l = pat ++ r`: match a literal at the head. -/
def eatLit : List Char → List Char → Option (List Char)
  | [], l => some l
  | _ :: _, [] => none
  | p :: ps, c :: cs => if c = p then eatLit ps cs else none

/-- Substring search (Python `re.search` of a literal pattern): does `pat`
occur anywhere in `l`? -/
def hasSub (pat : List Char) : List Char → Bool
  | [] => (eatLit pat []).isSome
  | c :: cs => (eatLit pat (c :: cs)).isSome || hasSub pat cs

/-- A word boundary `\b` holds before the current position when the previous
character (if any) is not a word character; callers only use this in front of
patterns that start with a word character. -/
def boundaryBefore (prev : Option Char) : Bool :=
  match prev with
  | none => true
  | some p => !isWordChar p

/-- A word boundary `\b` holds after a pattern ending in a word character when
the remaining input is empty or starts with a non-word character. -/
def boundaryAfter (rest : List Char) : Bool :=
  match rest with
  | [] => true
  | c :: _ => !isWordChar c

/-- Search for `\b<pat>\b` (with `pat` a literal beginning and ending in a
word character) starting with `prev` as the character preceding the current
position.  Models `re.search(r"\bWORD\b", ...)`. -/
def wordSearchAux (pat : List Char) (prev : Option Char) : List Char → Bool
  | [] => false
  | c :: cs =>
    (boundaryBefore prev
      && (match eatLit pat (c :: cs) with
          | some rest => boundaryAfter rest
          | none => false))
    || wordSearchAux pat (some c) cs

/-- `re.search(r"\bWORD\b", line)` for a literal word. -/
def wordSearch (pat : List Char) (line : List Char) : Bool :=
  wordSearchAux pat none line

/-- Consume exactly `k` characters satisfying `\d`. -/
def eatDigits : Nat → List Char → Option (List Char)
  | 0, l => some l
  | _ + 1, [] => none
  | k + 1, c :: cs => if isDigitChar c then eatDigits k cs else none

/-- Consume one literal character. -/
def eatChar (ch : Char) : List Char → Option (List Char)
  | [] => none
  | c :: cs => if c = ch then some cs else none

/-- Consume `\s+`: a maximal nonempty run of whitespace.  In every pattern of
the script `\s+` is followed by a non-whitespace requirement, so the greedy
maximal run is the unique possible match. -/
def eatSpaces1 (l : List Char) : Option (List Char) :=
  match l with
  | [] => none
  | c :: cs => if isSpaceChar c then some ((c :: cs).dropWhile isSpaceChar) else none

/-- Line 282 of the source:
`re.match(r"\d{4}-\d{2}-\d{2}\s+\d{2}:\d{2}:\d{2}\.\d{3}\b", line)`,
anchored at the start of the line (`re.match`). -/
def timestampMatch (line : List Char) : Bool :=
  (do
    let r ← eatDigits 4 line
    let r ← eatChar '-' r
    let r ← eatDigits 2 r
    let r ← eatChar '-' r
    let r ← eatDigits 2 r
    let r ← eatSpaces1 r
    let r ← eatDigits 2 r
    let r ← eatChar ':' r
    let r ← eatDigits 2 r
    let r ← eatChar ':' r
    let r ← eatDigits 2 r
    let r ← eatChar '.' r
    let r ← eatDigits 3 r
    if boundaryAfter r then some r else none).isSome

example : timestampMatch ("2024-01-01 00:00:00.000 INFO BACKUP_END ok").data = true := by decide
example : timestampMatch ("Storage set to /log WARN ERROR").data = false := by decide
example : timestampMatch ("2024-01-01 00:00:00.0001 x").data = false := by decide
example : wordSearch ("WARN").data ("2024 x WARNING y").data = false := by decide
example : wordSearch ("WARN").data ("2024 x WARN y").data = true := by decide
example : hasSub ("log_at_start").data ("xx log_at_start,yy").data = true := by decide

/-- Model of `\s+(.*)$` after a literal `set to`: at least one whitespace
character, then the capture is everything after the maximal whitespace run
(the greedy `\s+` cannot give characters back because `(.*)$` always
succeeds). -/
def eatSetTo (l : List Char) : Option (List Char) :=
  match eatLit ("set to").data l with
  | none => none
  | some r => eatSpaces1 r

/-- The greedy `.*` before `set to` in `.*set to\s+(.*)$` selects the LAST
occurrence of `set to` followed by whitespace; the capture is the rest of the
line after that whitespace. -/
def setToLast : List Char → Option (List Char)
  | [] => none
  | c :: cs =>
    match setToLast cs with
    | some v => some v
    | none => eatSetTo (c :: cs)

/-- One candidate position for
`\b<TAG>\s+.*set to\s+(.*)$` (TAG = `STORAGE_SET` or `REPOSITORY_SET`):
the literal tag, at least one whitespace character, then the last
`set to\s+` occurrence in the remainder.  `set to` begins with a
non-whitespace character, so searching after the maximal whitespace run
covers every position the regex can reach. -/
def tagSetTry (tag : List Char) (l : List Char) : Option (List Char) :=
  match eatLit tag l with
  | none => none
  | some r =>
    match eatSpaces1 r with
    | none => none
    | some r2 => setToLast r2

/-- Leftmost-position search for `\b<TAG>\s+.*set to\s+(.*)$`. -/
def tagSetScan (tag : List Char) (prev : Option Char) : List Char → Option (List Char)
  | [] => none
  | c :: cs =>
    match (if boundaryBefore prev then tagSetTry tag (c :: cs) else none) with
    | some v => some v
    | none => tagSetScan tag (some c) cs

/-- Line 285: `re.search(r"\bSTORAGE_SET\s+.*set to\s+(.*)$", line)`,
returning the capture. -/
def storageSetMatch (line : List Char) : Option (List Char) :=
  tagSetScan ("STORAGE_SET").data none line

/-- Line 290: `re.search(r"\bREPOSITORY_SET\s+.*set to\s+(.*)$", line)`,
returning the capture. -/
def repositorySetMatch (line : List Char) : Option (List Char) :=
  tagSetScan ("REPOSITORY_SET").data none line

/-- Line 295: `re.search(r"\bWARN\b", line)`. -/
def warnMatch (line : List Char) : Bool :=
  wordSearch ("WARN").data line

/-- Line 300: `re.search(r"\b(ERROR|FATAL|ASSERT)\b", line)` — as a boolean,
the alternation is the disjunction of the three word searches. -/
def errorMatch (line : List Char) : Bool :=
  wordSearch ("ERROR").data line || wordSearch ("FATAL").data line
    || wordSearch ("ASSERT").data line

/-- One candidate position for `\bINFO\s+<TAG>\b`. -/
def infoTagTry (tag : List Char) (l : List Char) : Option (List Char) :=
  match eatLit ("INFO").data l with
  | none => none
  | some r =>
    match eatSpaces1 r with
    | none => none
    | some r2 =>
      match eatLit tag r2 with
      | none => none
      | some r3 => if boundaryAfter r3 then some r3 else none

/-- Leftmost-position search for `\bINFO\s+<TAG>\b`, returning the input
remaining after the tag together with the tag (needed by the
`SNAPSHOT_DELETE` pattern, which continues with `.*\bremoved\b`). -/
def infoTagScan (tag : List Char) (prev : Option Char) : List Char → Option (List Char)
  | [] => none
  | c :: cs =>
    match (if boundaryBefore prev then infoTagTry tag (c :: cs) else none) with
    | some r => some r
    | none => infoTagScan tag (some c) cs

/-- Line 306: `re.search(r"\bINFO\s+CHUNK_DELETE\b", line)`. -/
def chunkDeleteMatch (line : List Char) : Bool :=
  (infoTagScan ("CHUNK_DELETE").data none line).isSome

/-- Line 308: `re.search(r"\bINFO\s+SNAPSHOT_DELETE\b.*\bremoved\b", line)`.
After `SNAPSHOT_DELETE\b` the pattern `.*\bremoved\b` requires a
word-bounded `removed` later on the same line; the character preceding
the continuation is the final `E` of the tag, so a `removed` adjacent to
the tag fails the boundary exactly as in the regex. -/
def snapshotDeleteMatch (line : List Char) : Bool :=
  match infoTagScan ("SNAPSHOT_DELETE").data none line with
  | none => false
  | some rest => wordSearchAux ("removed").data (some 'E') rest

/-- One candidate position for line 311,
`\bINFO\s+(\w+)\s+(\w.+\w)$`: after `INFO` and whitespace, the keyword is the
maximal nonempty run of word characters (backtracking it shorter would put a
word character where `\s+` needs whitespace), then whitespace, then the
capture is the entire rest of the line, which must begin and end with a word
character and have length at least 3 (`\w`, `.+`, `\w`). -/
def infoStatTry (l : List Char) : Option (List Char × List Char) :=
  match eatLit ("INFO").data l with
  | none => none
  | some r =>
    match eatSpaces1 r with
    | none => none
    | some r2 =>
      match r2.takeWhile isWordChar with
      | [] => none
      | k :: ks =>
        match eatSpaces1 (r2.dropWhile isWordChar) with
        | none => none
        | some payload =>
          if 3 ≤ payload.length
              && payload.head?.any isWordChar
              && payload.getLast?.any isWordChar
          then some (k :: ks, payload) else none

/-- Leftmost-position search for line 311:
`m = re.search(r"\bINFO\s+(\w+)\s+(\w.+\w)$", line)`, returning
`(m.group(1), m.group(2))`. -/
def infoStatScan (prev : Option Char) : List Char → Option (List Char × List Char)
  | [] => none
  | c :: cs =>
    match (if boundaryBefore prev then infoStatTry (c :: cs) else none) with
    | some r => some r
    | none => infoStatScan (some c) cs

/-- The `INFO <keyword> <payload>` statistics pattern of line 311. -/
def infoStatMatch (line : List Char) : Option (List Char × List Char) :=
  infoStatScan none line

/-- Lines 56-66: the `KEYWORDS` allow-list. -/
def KEYWORDS : List (List Char) :=
  [("BACKUP_END").data, ("BACKUP_STATS").data, ("SNAPSHOT_COPY").data,
   ("SNAPSHOT_NONE").data, ("SNAPSHOT_CHECK").data, ("RESTORE_END").data,
   ("RESTORE_STATS").data]

/-- One candidate position for `Copied \d+ new chunks` (line 318): the greedy
`\d+` is a maximal nonempty digit run (a shorter run would put a digit where
the literal space is required). -/
def copiedTry (l : List Char) : Bool :=
  match eatLit ("Copied ").data l with
  | none => false
  | some r =>
    match r.takeWhile isDigitChar with
    | [] => false
    | _ :: _ => (eatLit (" new chunks").data (r.dropWhile isDigitChar)).isSome

/-- Substring-position search for `Copied \d+ new chunks`. -/
def copiedScan : List Char → Bool
  | [] => false
  | c :: cs => copiedTry (c :: cs) || copiedScan cs

/-- Line 317-319: `re.search(r"Chunks to copy:|Copied \d+ new chunks", payload)`. -/
def copyRelevant (payload : List Char) : Bool :=
  hasSub ("Chunks to copy:").data payload || copiedScan payload

example : storageSetMatch ("2024-01-01 00:00:00.000 INFO STORAGE_SET Storage set to b2://bkt").data
    = some ("b2://bkt").data := by decide
example : storageSetMatch ("2024 STORAGE_SETX set to y").data = none := by decide
example : infoStatMatch ("2024-01-01 00:00:00.000 INFO BACKUP_END Backup for /x done").data
    = some (("BACKUP_END").data, ("Backup for /x done").data) := by decide
example : infoStatMatch ("2024-01-01 00:00:00.000 INFO BACKUP_END ab)").data = none := by decide
example : infoStatMatch ("2024-01-01 00:00:00.000 INFO BACKUP_END ab").data = none := by decide
example : chunkDeleteMatch ("2024 INFO CHUNK_DELETE The chunk x has been removed").data = true := by decide
example : snapshotDeleteMatch ("2024 INFO SNAPSHOT_DELETE The snapshot r at 4 removed").data = true := by decide
example : snapshotDeleteMatch ("2024 INFO SNAPSHOT_DELETE nothing").data = false := by decide
example : copyRelevant ("Copied 12 new chunks and 0 metadata chunks").data = true := by decide
example : copyRelevant ("Chunks to copy: 5, to skip: 2, total: 7").data = true := by decide
example : copyRelevant ("Copy complete").data = false := by decide

/-- Characters allowed in the captured healthchecks token: `[^,'\"\s]`
(not a comma, apostrophe, double quote or whitespace). -/
def hcTokenChar (c : Char) : Bool :=
  !(c = ',' || c = Char.ofNat 39 || c = Char.ofNat 34 || isSpaceChar c)

/-- One candidate position for line 213,
`re.search(r"\bhealthchecks\s*=\s*([^,'\"\s]+)", comment)`: the literal,
optional whitespace, `=`, optional whitespace, then the maximal nonempty run
of token characters (the character class excludes whitespace, so the greedy
`\s*` runs are maximal). -/
def hcTry (l : List Char) : Option (List Char) :=
  match eatLit ("healthchecks").data l with
  | none => none
  | some r =>
    match eatChar '=' (r.dropWhile isSpaceChar) with
    | none => none
    | some r2 =>
      match (r2.dropWhile isSpaceChar).takeWhile hcTokenChar with
      | [] => none
      | t :: ts => some (t :: ts)

/-- Leftmost-position search for the healthchecks URL in a `-comment` value. -/
def hcScan (prev : Option Char) : List Char → Option (List Char)
  | [] => none
  | c :: cs =>
    match (if boundaryBefore prev then hcTry (c :: cs) else none) with
    | some v => some v
    | none => hcScan (some c) cs

/-- Result of the argument scan of lines 204-244.  `supervised` carries the
operation together with the flags gathered from `-comment` values up to the
`break`; `passThrough` is the fixed no-notification command set;
`unrecognized` logs a warning then executes unwrapped; `parseFailed` is the
`while`-loop `else` clause (scan ran past the end of the argument list);
`indexError` is an uncaught `IndexError` carrying CPython's message for it:
`-comment` with no following value indexes past the end of the `sys.argv`
list (`sys.argv[i + 1]`, message `list index out of range`), while an
empty-string token indexes past the end of a string (`sys.argv[i][0]`,
message `string index out of range`). -/
inductive ScanResult where
  | supervised (operation : String) (atStart verbose : Bool) (healthchecks : Option (List Char))
  | passThrough
  | unrecognized
  | parseFailed
  | indexError (msg : List Char)
deriving DecidableEq

/-- Lines 204-244: the argument-classifying scan.  A list of tokens stands
for `sys.argv[1:]`; skipping an option and its value (`i += 2`) past the end
of the list leaves the `while` loop, which runs its `else` clause
(parse failed). -/
def scanArgs : List String → Bool → Bool → Option (List Char) → ScanResult
  | [], _, _, _ => ScanResult.parseFailed
  | a :: rest, atS, vb, hc =>
    if a = "-profile" || a = "-suppress" then
      match rest with
      | [] => ScanResult.parseFailed
      | _ :: rest2 => scanArgs rest2 atS vb hc
    else if a = "-comment" then
      match rest with
      | [] => ScanResult.indexError ("list index out of range").data
      | v :: rest2 =>
          scanArgs rest2
            (atS || hasSub ("log_at_start").data v.data)
            (vb || hasSub ("log_verbose").data v.data)
            (match hcScan none v.data with
             | some u => some u
             | none => hc)
    else
      match a.data with
      | [] => ScanResult.indexError ("string index out of range").data
      | c :: _ =>
        if c = '-' then
          scanArgs rest atS vb hc
        else if a = "backup" || a = "copy" || a = "prune" || a = "check" || a = "restore" then
          ScanResult.supervised a atS vb hc
        else if a = "init" || a = "list" || a = "cat" || a = "diff" || a = "history"
            || a = "password" || a = "add" || a = "set" || a = "info" || a = "benchmark"
            || a = "help" || a = "h" then
          ScanResult.passThrough
        else
          ScanResult.unrecognized

example : scanArgs ["prune", "-unknownflag"] false false none
    = ScanResult.supervised "prune" false false none := by decide
example : scanArgs ["-unknownflag"] false false none = ScanResult.parseFailed := by decide
example : scanArgs ["-comment"] false false none
    = ScanResult.indexError ("list index out of range").data := by decide
example : scanArgs [""] false false none
    = ScanResult.indexError ("string index out of range").data := by decide
example : scanArgs ["-comment", "log_verbose,healthchecks=https://hc.io/x", "backup"] false false none
    = ScanResult.supervised "backup" false true (some ("https://hc.io/x").data) := by decide
example : scanArgs ["-profile", "backup"] false false none = ScanResult.parseFailed := by decide
example : scanArgs ["list"] false false none = ScanResult.passThrough := by decide
example : scanArgs ["frobnicate"] false false none = ScanResult.unrecognized := by decide

/-- The per-run mutable state of `main` (lines 179-200): the accumulated
message fragments `msg`, the statistics report `stats`, the last captured
storage/repository names, the four counters, and the verbose-mode
side-channel `log_tool` calls in emission order (message, severity). -/
structure RunState where
  msg : List Char
  stats : List Char
  storage : Option (List Char)
  repository : Option (List Char)
  errors : Nat
  warnings : Nat
  chunksRemoved : Nat
  snapshotsRemoved : Nat
  logs : List (List Char × Nat)
deriving DecidableEq

/-- Initial values of the run state (lines 183-200). -/
def initState : RunState :=
  { msg := [], stats := [], storage := none, repository := none,
    errors := 0, warnings := 0, chunksRemoved := 0, snapshotsRemoved := 0, logs := [] }

/-- The configuration of one supervised run: `OPERATION`, `CMD`
(`" ".join(sys.argv[1:])`), and the three `-comment` flags. -/
structure Config where
  operation : List Char
  cmd : List Char
  atStart : Bool
  verbose : Bool
  healthchecks : Option (List Char)

/-- Lines 298 and 303: `"[duplicacy {}] {}; {}".format(OPERATION, CMD, line)`. -/
def verboseLogMsg (cfg : Config) (line : List Char) : List Char :=
  ("[duplicacy ").data ++ cfg.operation ++ ("] ").data ++ cfg.cmd ++ ("; ").data ++ line

/-- Lines 285-288: on a `STORAGE_SET ... set to` match, record the storage
name and append the `; Storage: ` fragment to `msg`. -/
def applyStorage (line : List Char) (st : RunState) : RunState :=
  match storageSetMatch line with
  | some v => { st with storage := some v, msg := st.msg ++ ("; Storage: ").data ++ v }
  | none => st

/-- Lines 290-293: on a `REPOSITORY_SET ... set to` match, record the
repository name and append the `; Repository: ` fragment to `msg`. -/
def applyRepository (line : List Char) (st : RunState) : RunState :=
  match repositorySetMatch line with
  | some v => { st with repository := some v, msg := st.msg ++ ("; Repository: ").data ++ v }
  | none => st

/-- Lines 295-298: a `\bWARN\b` match increments `warnings` and, in verbose
mode, emits a severity-1 `log_tool` call. -/
def applyWarn (cfg : Config) (line : List Char) (st : RunState) : RunState :=
  if warnMatch line then
    { st with warnings := st.warnings + 1,
              logs := st.logs ++ (if cfg.verbose then [(verboseLogMsg cfg line, 1)] else []) }
  else st

/-- Lines 300-303: a `\b(ERROR|FATAL|ASSERT)\b` match increments `errors`
and, in verbose mode, emits a severity-2 `log_tool` call. -/
def applyError (cfg : Config) (line : List Char) (st : RunState) : RunState :=
  if errorMatch line then
    { st with errors := st.errors + 1,
              logs := st.logs ++ (if cfg.verbose then [(verboseLogMsg cfg line, 2)] else []) }
  else st

/-- Lines 305-309: only when the operation is `prune`, count
`INFO CHUNK_DELETE` lines, `elif` `INFO SNAPSHOT_DELETE ... removed` lines. -/
def applyPruneCounts (cfg : Config) (line : List Char) (st : RunState) : RunState :=
  if cfg.operation = ("prune").data then
    if chunkDeleteMatch line then { st with chunksRemoved := st.chunksRemoved + 1 }
    else if snapshotDeleteMatch line then { st with snapshotsRemoved := st.snapshotsRemoved + 1 }
    else st
  else st

/-- Lines 311-322 as the fragment the line contributes to `stats`: the
keyword must be in the allow-list, and the two suppression branches (`pass`)
contribute nothing. -/
def statFragOf (line : List Char) : List Char :=
  match infoStatMatch line with
  | some (kw, payload) =>
    if kw ∈ KEYWORDS then
      if kw = ("SNAPSHOT_CHECK").data
          && hasSub ("All chunks referenced by snapshot").data payload then []
      else if kw = ("SNAPSHOT_COPY").data && !copyRelevant payload then []
      else ("; ").data ++ payload
    else []
  | none => []

/-- Lines 311-322: `stats += "; " + m.group(2)` unless the match is missing,
the keyword is not allow-listed, or a suppression branch applies. -/
def applyStats (line : List Char) (st : RunState) : RunState :=
  { st with stats := st.stats ++ statFragOf line }

/-- The body of the read loop (lines 282-322) for one output line: a line
without the timestamp match is skipped (`continue`), otherwise the five
classifications run in source order.  (Echoing the line to stdout, line 278,
has no effect on the run state and is not modelled.) -/
def processLine (cfg : Config) (st : RunState) (line : List Char) : RunState :=
  if timestampMatch line then
    applyStats line
      (applyPruneCounts cfg line
        (applyError cfg line
          (applyWarn cfg line
            (applyRepository line
              (applyStorage line st)))))
  else st

/-- The whole read loop over the child's output lines. -/
def processLines (cfg : Config) (st : RunState) (lines : List (List Char)) : RunState :=
  lines.foldl (processLine cfg) st

/-- Lines 331-354: the severity computed from the exit code and the error and
warning counts.  `exit_code` is `CLI.poll()`, in general an optional integer;
Python's `None == 0` is false, so a `None` exit code falls through every
`elif` to the final `else` (severity 2).  The message fragments appended by
the same statements are reproduced separately in `finalMessage`; the two
computations do not depend on each other. -/
def resolveSeverity (exitCode : Option Int) (errors warnings : Nat) : Nat :=
  let severity :=
    if errors > 0 then 2
    else if exitCode = some 0 then 0
    else if exitCode = some 1 then 1
    else if exitCode = some 2 then 2
    else if exitCode = some 3 then 2
    else if exitCode = some 100 then 2
    else if exitCode = some 101 then 2
    else 2
  if warnings > 0 then (if severity = 0 then 1 else severity) else severity

/-- Decimal rendering of a count, as Python `str.format` renders an int. -/
def natRepr (n : Nat) : List Char :=
  (Nat.repr n).data

/-- Decimal rendering of an exit code (possibly negative on a signal death). -/
def intRepr (i : Int) : List Char :=
  (Int.repr i).data

/-- Lines 331-367: the final notification message
`"[duplicacy {}] {}{}".format(OPERATION, CMD, msg)` where `msg` receives, in
order: the error-count fragment (inside the `errors > 0` branch, note the
source's literal `errors(s)`), the warning-count fragment, then `stats` —
itself extended first by the chunk-removed and then the snapshot-removed
fragment — and finally the exit-status fragment when the exit code is a
positive number. -/
def finalMessage (cfg : Config) (st : RunState) (exitCode : Option Int) : List Char :=
  let msg := st.msg
  let msg := if st.errors > 0 then msg ++ ("; ").data ++ natRepr st.errors ++ (" errors(s)").data else msg
  let msg := if st.warnings > 0 then msg ++ ("; ").data ++ natRepr st.warnings ++ (" warning(s)").data else msg
  let stats := st.stats
  let stats := if st.chunksRemoved > 0 then stats ++ ("; ").data ++ natRepr st.chunksRemoved ++ (" chunk(s) removed").data else stats
  let stats := if st.snapshotsRemoved > 0 then stats ++ ("; ").data ++ natRepr st.snapshotsRemoved ++ (" snapshot(s) removed").data else stats
  let msg := msg ++ stats
  let msg :=
    match exitCode with
    | some e => if e > 0 then msg ++ ("; Exit status: ").data ++ intRepr e else msg
    | none => msg
  ("[duplicacy ").data ++ cfg.operation ++ ("] ").data ++ cfg.cmd ++ msg

/-- The observable outcome of one supervised run: every `log_tool` call in
order (message, severity), every healthchecks ping (URL, posted data), the
resolved severity, the final notification message, and the wrapper's exit
status. -/
structure RunOutcome where
  logs : List (List Char × Nat)
  pings : List (List Char × List Char)
  severity : Nat
  message : List Char
  exit : Int
deriving DecidableEq

/-- Lines 248-376 after a successful argument scan: the optional starting
log (line 249), the read loop, severity resolution and message formatting,
the final `log_tool` call (line 367), the optional healthchecks ping to
`<url>/<severity>` with the message as data (lines 369-374), and
`sys.exit(exit_code)` (line 376).  The read loop only ends once
`CLI.poll()` is not `None`, so the exit code is the child's exit status
`childExit`.  The ping transport (`curl`, lines 143-161) is external: its
exit status is the oracle `pingRc` and its decoded standard error `pingErr`;
a nonzero `pingRc` produces the severity-1 `ping failed` log of line 156
and nothing else. -/
def runSupervised (cfg : Config) (lines : List (List Char)) (childExit : Int)
    (pingRc : Int) (pingErr : List Char) : RunOutcome :=
  let startLogs : List (List Char × Nat) :=
    if cfg.atStart then [(("[duplicacy starting ").data ++ cfg.operation ++ ("] ").data ++ cfg.cmd, 0)] else []
  let st := processLines cfg initState lines
  let exitCode : Option Int := some childExit
  let severity := resolveSeverity exitCode st.errors st.warnings
  let message := finalMessage cfg st exitCode
  let pings : List (List Char × List Char) :=
    match cfg.healthchecks with
    | some url => [(url ++ ("/").data ++ natRepr severity, message)]
    | none => []
  let pingLogs : List (List Char × Nat) :=
    match cfg.healthchecks with
    | some url =>
      if pingRc ≠ 0 then
        [(("[duplicacy ").data ++ cfg.operation ++ ("] ").data ++ url ++ ("/").data
            ++ natRepr severity ++ (" ping failed, ").data ++ pingErr, 1)]
      else []
    | none => []
  { logs := startLogs ++ st.logs ++ [(message, severity)] ++ pingLogs,
    pings := pings, severity := severity, message := message, exit := childExit }

/-- How one invocation of the wrapper ends. -/
inductive Mode where
  /-- `os.execvp` replaced the wrapper by the duplicacy process
  (`exec_unwrapped`, line 127): the wrapper's exit status is by definition
  the tool's own. -/
  | unwrapped
  /-- The run was supervised with the given operation. -/
  | supervised (op : List Char)
  /-- An exception escaped `main` and the top-level handler of lines 379-384
  logged it at severity 2 and exited with status 1. -/
  | aborted
deriving DecidableEq

/-- The observable outcome of one wrapper invocation. -/
structure WrapperOutcome where
  mode : Mode
  logs : List (List Char × Nat)
  pings : List (List Char × List Char)
  exit : Int
  /-- Whether the wrapped tool was started at all (as a child or by
  `os.execvp`). -/
  ranTool : Bool
deriving DecidableEq

/-- One whole invocation of the wrapper with argument list `args`
(`sys.argv[1:]`).  The wrapped tool is external: `toolLines` are the lines it
writes to its stdout pipe (newline-stripped) and `toolExit` its exit status;
`pingRc`/`pingErr` are the ping transport oracle.  The `log_tool` sink is
modelled as always succeeding (the notification center is an external
collaborator).  An `IndexError` escaping the scan reaches the top-level
handler (lines 379-384), which logs `"[duplicacy {}] {}: {}"` with the still
unset operation `?` and CPython's message for that particular error (`list
index out of range` from `sys.argv[i + 1]`, `string index out of range` from
`sys.argv[i][0]`), then exits with status 1 — the tool was never started. -/
def wrapperRun (args : List String) (toolLines : List (List Char)) (toolExit : Int)
    (pingRc : Int) (pingErr : List Char) : WrapperOutcome :=
  let cmd := (String.intercalate " " args).data
  match scanArgs args false false none with
  | ScanResult.supervised op atS vb hc =>
    let r := runSupervised { operation := op.data, cmd := cmd, atStart := atS,
                             verbose := vb, healthchecks := hc } toolLines toolExit pingRc pingErr
    { mode := Mode.supervised op.data, logs := r.logs, pings := r.pings,
      exit := r.exit, ranTool := true }
  | ScanResult.passThrough =>
    { mode := Mode.unwrapped, logs := [], pings := [], exit := toolExit, ranTool := true }
  | ScanResult.unrecognized =>
    { mode := Mode.unwrapped, logs := [(("[duplicacy] Unrecogized command: ").data ++ cmd, 1)],
      pings := [], exit := toolExit, ranTool := true }
  | ScanResult.parseFailed =>
    { mode := Mode.unwrapped, logs := [(("[duplicacy] Parse failed: ").data ++ cmd, 1)],
      pings := [], exit := toolExit, ranTool := true }
  | ScanResult.indexError m =>
    { mode := Mode.aborted,
      logs := [(("[duplicacy ?] ").data ++ cmd ++ (": ").data ++ m, 2)],
      pings := [], exit := 1, ranTool := false }

/-- The exit-code table exactly as the specification words it:
`0→INFO`, `1→WARNING`, `2→ERROR`, `3→ERROR`, `100→ERROR`, `101→ERROR`, any
other non-zero value → `ERROR`, `null/unknown` treated as `ERROR`. -/
def severityTableSpec (exitCode : Option Int) : Nat :=
  match exitCode with
  | none => 2
  | some e =>
    if e = 0 then 0
    else if e = 1 then 1
    else if e = 2 then 2
    else if e = 3 then 2
    else if e = 100 then 2
    else if e = 101 then 2
    else 2

/-- The Severity Resolver exactly as the specification words it: errors force
ERROR regardless of exit code; otherwise the exit-code table; a positive
warning count upgrades INFO to WARNING and never lowers a higher severity
(`max` with WARNING). -/
def severitySpec (exitCode : Option Int) (errors warnings : Nat) : Nat :=
  if errors > 0 then 2
  else if warnings > 0 then max (severityTableSpec exitCode) 1
  else severityTableSpec exitCode

/-- Claim C1: the severity resolution of lines 331-354 is the pure function
described by the specification — errors force ERROR, otherwise the fixed
exit-code table (with null/unknown as ERROR), and a positive warning count
upgrades INFO to WARNING without ever lowering a higher severity. -/
theorem severity_resolver_refines_spec (exitCode : Option Int) (errors warnings : Nat) :
    resolveSeverity exitCode errors warnings = severitySpec exitCode errors warnings := by
  unfold resolveSeverity severitySpec severityTableSpec
  cases exitCode with
  | none => simp only [Option.some.injEq]; split_ifs <;> simp_all
  | some e => simp only [Option.some.injEq]; split_ifs <;> simp_all

/-- The `; Storage: ` fragment a line contributes to `msg` (lines 285-288). -/
def storageFragOf (line : List Char) : List Char :=
  match storageSetMatch line with
  | some v => ("; Storage: ").data ++ v
  | none => []

/-- The `; Repository: ` fragment a line contributes to `msg` (lines 290-293). -/
def repositoryFragOf (line : List Char) : List Char :=
  match repositorySetMatch line with
  | some v => ("; Repository: ").data ++ v
  | none => []

/-- Everything one output line appends to `msg` (nothing without the
timestamp prefix). -/
def lineMsgFrag (line : List Char) : List Char :=
  if timestampMatch line then storageFragOf line ++ repositoryFragOf line else []

/-- Everything one output line appends to `stats` (nothing without the
timestamp prefix). -/
def lineStatFrag (line : List Char) : List Char :=
  if timestampMatch line then statFragOf line else []

/-- What one output line adds to the `warnings` counter. -/
def lineWarnCount (line : List Char) : Nat :=
  if timestampMatch line && warnMatch line then 1 else 0

/-- What one output line adds to the `errors` counter. -/
def lineErrCount (line : List Char) : Nat :=
  if timestampMatch line && errorMatch line then 1 else 0

/-- What one output line adds to the `chunksRemoved` counter. -/
def lineChunkCount (cfg : Config) (line : List Char) : Nat :=
  if timestampMatch line && decide (cfg.operation = ("prune").data) && chunkDeleteMatch line
  then 1 else 0

/-- What one output line adds to the `snapshotsRemoved` counter (note the
`elif`: a line already counted as a chunk deletion is never counted here). -/
def lineSnapCount (cfg : Config) (line : List Char) : Nat :=
  if timestampMatch line && decide (cfg.operation = ("prune").data) && !chunkDeleteMatch line
      && snapshotDeleteMatch line
  then 1 else 0

lemma applyStorage_proj (line : List Char) (st : RunState) :
    (applyStorage line st).msg = st.msg ++ storageFragOf line
    ∧ (applyStorage line st).stats = st.stats
    ∧ (applyStorage line st).errors = st.errors
    ∧ (applyStorage line st).warnings = st.warnings
    ∧ (applyStorage line st).chunksRemoved = st.chunksRemoved
    ∧ (applyStorage line st).snapshotsRemoved = st.snapshotsRemoved := by
  cases h : storageSetMatch line <;> simp [applyStorage, storageFragOf, h]

lemma applyRepository_proj (line : List Char) (st : RunState) :
    (applyRepository line st).msg = st.msg ++ repositoryFragOf line
    ∧ (applyRepository line st).stats = st.stats
    ∧ (applyRepository line st).errors = st.errors
    ∧ (applyRepository line st).warnings = st.warnings
    ∧ (applyRepository line st).chunksRemoved = st.chunksRemoved
    ∧ (applyRepository line st).snapshotsRemoved = st.snapshotsRemoved := by
  cases h : repositorySetMatch line <;> simp [applyRepository, repositoryFragOf, h]

lemma applyWarn_proj (cfg : Config) (line : List Char) (st : RunState) :
    (applyWarn cfg line st).msg = st.msg
    ∧ (applyWarn cfg line st).stats = st.stats
    ∧ (applyWarn cfg line st).errors = st.errors
    ∧ (applyWarn cfg line st).warnings = st.warnings + (if warnMatch line then 1 else 0)
    ∧ (applyWarn cfg line st).chunksRemoved = st.chunksRemoved
    ∧ (applyWarn cfg line st).snapshotsRemoved = st.snapshotsRemoved := by
  by_cases h : warnMatch line <;> simp [applyWarn, h]

lemma applyError_proj (cfg : Config) (line : List Char) (st : RunState) :
    (applyError cfg line st).msg = st.msg
    ∧ (applyError cfg line st).stats = st.stats
    ∧ (applyError cfg line st).errors = st.errors + (if errorMatch line then 1 else 0)
    ∧ (applyError cfg line st).warnings = st.warnings
    ∧ (applyError cfg line st).chunksRemoved = st.chunksRemoved
    ∧ (applyError cfg line st).snapshotsRemoved = st.snapshotsRemoved := by
  by_cases h : errorMatch line <;> simp [applyError, h]

lemma applyPruneCounts_proj (cfg : Config) (line : List Char) (st : RunState) :
    (applyPruneCounts cfg line st).msg = st.msg
    ∧ (applyPruneCounts cfg line st).stats = st.stats
    ∧ (applyPruneCounts cfg line st).errors = st.errors
    ∧ (applyPruneCounts cfg line st).warnings = st.warnings
    ∧ (applyPruneCounts cfg line st).chunksRemoved = st.chunksRemoved
        + (if cfg.operation = ("prune").data ∧ chunkDeleteMatch line then 1 else 0)
    ∧ (applyPruneCounts cfg line st).snapshotsRemoved = st.snapshotsRemoved
        + (if cfg.operation = ("prune").data ∧ ¬chunkDeleteMatch line
              ∧ snapshotDeleteMatch line then 1 else 0) := by
  unfold applyPruneCounts
  split_ifs <;> simp_all

lemma applyStats_proj (line : List Char) (st : RunState) :
    (applyStats line st).msg = st.msg
    ∧ (applyStats line st).stats = st.stats ++ statFragOf line
    ∧ (applyStats line st).errors = st.errors
    ∧ (applyStats line st).warnings = st.warnings
    ∧ (applyStats line st).chunksRemoved = st.chunksRemoved
    ∧ (applyStats line st).snapshotsRemoved = st.snapshotsRemoved := by
  simp [applyStats]

lemma processLine_msg (cfg : Config) (st : RunState) (line : List Char) :
    (processLine cfg st line).msg = st.msg ++ lineMsgFrag line := by
  unfold processLine lineMsgFrag
  by_cases ht : timestampMatch line = true <;> simp only [ht, if_true, if_false, Bool.false_eq_true]
  · rw [(applyStats_proj _ _).1, (applyPruneCounts_proj _ _ _).1, (applyError_proj _ _ _).1,
      (applyWarn_proj _ _ _).1, (applyRepository_proj _ _).1, (applyStorage_proj _ _).1,
      List.append_assoc]
  · simp

lemma processLine_stats (cfg : Config) (st : RunState) (line : List Char) :
    (processLine cfg st line).stats = st.stats ++ lineStatFrag line := by
  unfold processLine lineStatFrag
  by_cases ht : timestampMatch line = true <;> simp only [ht, if_true, if_false, Bool.false_eq_true]
  · rw [(applyStats_proj _ _).2.1, (applyPruneCounts_proj _ _ _).2.1, (applyError_proj _ _ _).2.1,
      (applyWarn_proj _ _ _).2.1, (applyRepository_proj _ _).2.1, (applyStorage_proj _ _).2.1]
  · simp

lemma processLine_errors (cfg : Config) (st : RunState) (line : List Char) :
    (processLine cfg st line).errors = st.errors + lineErrCount line := by
  unfold processLine lineErrCount
  by_cases ht : timestampMatch line = true <;>
    simp only [ht, if_true, if_false, Bool.false_eq_true, Bool.true_and, Bool.false_and]
  · rw [(applyStats_proj _ _).2.2.1, (applyPruneCounts_proj _ _ _).2.2.1,
      (applyError_proj _ _ _).2.2.1, (applyWarn_proj _ _ _).2.2.1,
      (applyRepository_proj _ _).2.2.1, (applyStorage_proj _ _).2.2.1]
  · simp

lemma processLine_warnings (cfg : Config) (st : RunState) (line : List Char) :
    (processLine cfg st line).warnings = st.warnings + lineWarnCount line := by
  unfold processLine lineWarnCount
  by_cases ht : timestampMatch line = true <;>
    simp only [ht, if_true, if_false, Bool.false_eq_true, Bool.true_and, Bool.false_and]
  · rw [(applyStats_proj _ _).2.2.2.1, (applyPruneCounts_proj _ _ _).2.2.2.1,
      (applyError_proj _ _ _).2.2.2.1, (applyWarn_proj _ _ _).2.2.2.1,
      (applyRepository_proj _ _).2.2.2.1, (applyStorage_proj _ _).2.2.2.1]
  · simp

lemma processLine_chunks (cfg : Config) (st : RunState) (line : List Char) :
    (processLine cfg st line).chunksRemoved = st.chunksRemoved + lineChunkCount cfg line := by
  unfold processLine lineChunkCount
  by_cases ht : timestampMatch line = true <;>
    simp only [ht, if_true, if_false, Bool.false_eq_true, Bool.true_and, Bool.false_and]
  · rw [(applyStats_proj _ _).2.2.2.2.1, (applyPruneCounts_proj _ _ _).2.2.2.2.1,
      (applyError_proj _ _ _).2.2.2.2.1, (applyWarn_proj _ _ _).2.2.2.2.1,
      (applyRepository_proj _ _).2.2.2.2.1, (applyStorage_proj _ _).2.2.2.2.1]
    by_cases hp : cfg.operation = ("prune").data <;>
      by_cases hc : chunkDeleteMatch line = true <;> simp [hp, hc]
  · simp

lemma processLine_snaps (cfg : Config) (st : RunState) (line : List Char) :
    (processLine cfg st line).snapshotsRemoved = st.snapshotsRemoved + lineSnapCount cfg line := by
  unfold processLine lineSnapCount
  by_cases ht : timestampMatch line = true <;>
    simp only [ht, if_true, if_false, Bool.false_eq_true, Bool.true_and, Bool.false_and]
  · rw [(applyStats_proj _ _).2.2.2.2.2, (applyPruneCounts_proj _ _ _).2.2.2.2.2,
      (applyError_proj _ _ _).2.2.2.2.2, (applyWarn_proj _ _ _).2.2.2.2.2,
      (applyRepository_proj _ _).2.2.2.2.2, (applyStorage_proj _ _).2.2.2.2.2]
    by_cases hp : cfg.operation = ("prune").data <;>
      by_cases hc : chunkDeleteMatch line = true <;>
        by_cases hs : snapshotDeleteMatch line = true <;> simp [hp, hc, hs]
  · simp

lemma processLines_msg (cfg : Config) (st : RunState) (lines : List (List Char)) :
    (processLines cfg st lines).msg = st.msg ++ (lines.map lineMsgFrag).flatten := by
  induction lines generalizing st with
  | nil => simp [processLines]
  | cons l ls ih =>
    simp only [processLines, List.foldl_cons, List.map_cons, List.flatten_cons] at ih ⊢
    rw [ih, processLine_msg, List.append_assoc]

lemma processLines_stats (cfg : Config) (st : RunState) (lines : List (List Char)) :
    (processLines cfg st lines).stats = st.stats ++ (lines.map lineStatFrag).flatten := by
  induction lines generalizing st with
  | nil => simp [processLines]
  | cons l ls ih =>
    simp only [processLines, List.foldl_cons, List.map_cons, List.flatten_cons] at ih ⊢
    rw [ih, processLine_stats, List.append_assoc]

lemma processLines_errors (cfg : Config) (st : RunState) (lines : List (List Char)) :
    (processLines cfg st lines).errors = st.errors + (lines.map lineErrCount).sum := by
  induction lines generalizing st with
  | nil => simp [processLines]
  | cons l ls ih =>
    simp only [processLines, List.foldl_cons, List.map_cons, List.sum_cons] at ih ⊢
    rw [ih, processLine_errors]; omega

lemma processLines_warnings (cfg : Config) (st : RunState) (lines : List (List Char)) :
    (processLines cfg st lines).warnings = st.warnings + (lines.map lineWarnCount).sum := by
  induction lines generalizing st with
  | nil => simp [processLines]
  | cons l ls ih =>
    simp only [processLines, List.foldl_cons, List.map_cons, List.sum_cons] at ih ⊢
    rw [ih, processLine_warnings]; omega

lemma processLines_chunks (cfg : Config) (st : RunState) (lines : List (List Char)) :
    (processLines cfg st lines).chunksRemoved
      = st.chunksRemoved + (lines.map (lineChunkCount cfg)).sum := by
  induction lines generalizing st with
  | nil => simp [processLines]
  | cons l ls ih =>
    simp only [processLines, List.foldl_cons, List.map_cons, List.sum_cons] at ih ⊢
    rw [ih, processLine_chunks]; omega

lemma processLines_snaps (cfg : Config) (st : RunState) (lines : List (List Char)) :
    (processLines cfg st lines).snapshotsRemoved
      = st.snapshotsRemoved + (lines.map (lineSnapCount cfg)).sum := by
  induction lines generalizing st with
  | nil => simp [processLines]
  | cons l ls ih =>
    simp only [processLines, List.foldl_cons, List.map_cons, List.sum_cons] at ih ⊢
    rw [ih, processLine_snaps]; omega

/-- Claim C9: the four counters of the aggregate state are monotonically
non-decreasing — processing any sequence of output lines from any starting
state never decreases `errors`, `warnings`, `chunksRemoved` or
`snapshotsRemoved`. -/
theorem counters_monotone (cfg : Config) (st : RunState) (lines : List (List Char)) :
    st.errors ≤ (processLines cfg st lines).errors
    ∧ st.warnings ≤ (processLines cfg st lines).warnings
    ∧ st.chunksRemoved ≤ (processLines cfg st lines).chunksRemoved
    ∧ st.snapshotsRemoved ≤ (processLines cfg st lines).snapshotsRemoved := by
  rw [processLines_errors, processLines_warnings, processLines_chunks, processLines_snaps]
  omega

/-- Claim C8: an output line without the timestamp prefix changes nothing —
the read-loop body returns the aggregate state unchanged (no counter, no
storage/repository update, no fragment, no verbose log), whatever else the
line contains. -/
theorem no_timestamp_no_effect (cfg : Config) (st : RunState) (line : List Char)
    (h : timestampMatch line = false) :
    processLine cfg st line = st := by
  simp [processLine, h]

/-- Witness for C8 at a line that contains `WARN`, `ERROR` and an
allow-listed keyword but no timestamp prefix. -/
theorem no_timestamp_no_effect_witness :
    timestampMatch ("WARN ERROR INFO BACKUP_END all done").data = false
    ∧ processLine ⟨("prune").data, ("prune").data, false, true, none⟩ initState
        ("WARN ERROR INFO BACKUP_END all done").data = initState :=
  ⟨by decide, no_timestamp_no_effect _ _ _ (by decide)⟩

/-- Claim C2 counterexample: in a prune run that records one statistics
payload (`abc`) and one chunk deletion, the final message carries the stat
fragment BEFORE the chunk-removed fragment — the claimed order (chunk-removed
and snapshot-removed fragments before the remaining stat fragments) does not
hold. -/
theorem message_order_counterexample :
    (runSupervised ⟨("prune").data, ("prune").data, false, false, none⟩
        [("2024-01-01 00:00:00.000 INFO BACKUP_STATS abc").data,
         ("2024-01-01 00:00:00.000 INFO CHUNK_DELETE xyz").data] 0 0 []).message
      = ("[duplicacy prune] prune; abc; 1 chunk(s) removed").data
    ∧ (runSupervised ⟨("prune").data, ("prune").data, false, false, none⟩
        [("2024-01-01 00:00:00.000 INFO BACKUP_STATS abc").data,
         ("2024-01-01 00:00:00.000 INFO CHUNK_DELETE xyz").data] 0 0 []).message
      ≠ ("[duplicacy prune] prune; 1 chunk(s) removed; abc").data := by
  constructor <;> decide

/-- Claim C2 (amended): the final notification message is the concatenation,
in exactly this order, of the bracketed `[duplicacy <operation>]` header, the
original command line, the storage/repository fragments in arrival order, the
error-count fragment (if `errors > 0`), the warning-count fragment (if
`warnings > 0`), the stat fragments in arrival order, the chunk-removed and
snapshot-removed fragments (if their counts are positive) — the removal
fragments come AFTER the stat fragments, not before as the original claim
says — and the exit-status fragment (only when the exit code is positive). -/
theorem message_fragment_order (cfg : Config) (lines : List (List Char)) (childExit : Int)
    (pingRc : Int) (pingErr : List Char) :
    (runSupervised cfg lines childExit pingRc pingErr).message
      = ("[duplicacy ").data ++ cfg.operation ++ ("] ").data ++ cfg.cmd
        ++ (lines.map lineMsgFrag).flatten
        ++ (if (processLines cfg initState lines).errors > 0
            then ("; ").data ++ natRepr (processLines cfg initState lines).errors
              ++ (" errors(s)").data
            else [])
        ++ (if (processLines cfg initState lines).warnings > 0
            then ("; ").data ++ natRepr (processLines cfg initState lines).warnings
              ++ (" warning(s)").data
            else [])
        ++ (lines.map lineStatFrag).flatten
        ++ (if (processLines cfg initState lines).chunksRemoved > 0
            then ("; ").data ++ natRepr (processLines cfg initState lines).chunksRemoved
              ++ (" chunk(s) removed").data
            else [])
        ++ (if (processLines cfg initState lines).snapshotsRemoved > 0
            then ("; ").data ++ natRepr (processLines cfg initState lines).snapshotsRemoved
              ++ (" snapshot(s) removed").data
            else [])
        ++ (if childExit > 0 then ("; Exit status: ").data ++ intRepr childExit else []) := by
  have hmsg : (processLines cfg initState lines).msg = (lines.map lineMsgFrag).flatten := by
    have h := processLines_msg cfg initState lines
    simpa [initState] using h
  have hst : (processLines cfg initState lines).stats = (lines.map lineStatFrag).flatten := by
    have h := processLines_stats cfg initState lines
    simpa [initState] using h
  simp only [runSupervised, finalMessage]
  rw [hmsg, hst]
  by_cases h1 : (processLines cfg initState lines).errors > 0 <;>
    by_cases h2 : (processLines cfg initState lines).warnings > 0 <;>
      by_cases h3 : (processLines cfg initState lines).chunksRemoved > 0 <;>
        by_cases h4 : (processLines cfg initState lines).snapshotsRemoved > 0 <;>
          by_cases h5 : childExit > 0 <;>
            simp [h1, h2, h3, h4, h5, List.append_assoc]

/-- Claim C3 counterexample: for the argument list `["prune", "-unknownflag"]`
the very first token is the operation `prune`, so the scan selects
supervision with operation `prune` and stops — it does NOT fall back to
unwrapped passthrough, and no `Parse failed` message is logged. -/
theorem prune_unknownflag_supervised :
    scanArgs ["prune", "-unknownflag"] false false none
      = ScanResult.supervised "prune" false false none
    ∧ (wrapperRun ["prune", "-unknownflag"] [] 0 0 []).mode = Mode.supervised ("prune").data
    ∧ ∀ p ∈ (wrapperRun ["prune", "-unknownflag"] [] 0 0 []).logs,
        hasSub ("Parse failed").data p.1 = false := by
  refine ⟨by decide, by decide, ?_⟩
  decide

/-- Claim C3 (amended): the `Parse failed` unwrapped fallback happens for an
argument list the scan exhausts without finding any operation token — for
example `["-unknownflag"]` alone.  The run is then reclassified as unwrapped
passthrough, and the only log emitted before the process is replaced is the
severity-1 (WARNING) `Parse failed` message naming the command line.  (For
`["prune", "-unknownflag"]`, the input named by the original claim, the
classifier instead selects supervision with operation `prune`.) -/
theorem parse_failed_fallback :
    (wrapperRun ["-unknownflag"] [] 0 0 []).mode = Mode.unwrapped
    ∧ (wrapperRun ["-unknownflag"] [] 0 0 []).logs
      = [(("[duplicacy] Parse failed: -unknownflag").data, 1)] := by
  constructor <;> decide

/-- Claim C4: whenever the wrapped tool actually runs — that is, the argument
scan does not raise an `IndexError` — the wrapper's own exit status equals
the tool's exit status: supervised runs end in `sys.exit(exit_code)` with the
child's polled exit code, and every unwrapped path replaces the wrapper
process by the tool via `os.execvp`, whose exit status is then the tool's by
definition.  (The notification sink is modelled as always succeeding; it is
an external collaborator.) -/
theorem wrapper_exit_propagates (args : List String) (toolLines : List (List Char))
    (toolExit : Int) (pingRc : Int) (pingErr : List Char)
    (h : ∀ m, scanArgs args false false none ≠ ScanResult.indexError m) :
    (wrapperRun args toolLines toolExit pingRc pingErr).exit = toolExit := by
  unfold wrapperRun
  cases hs : scanArgs args false false none with
  | indexError m => exact absurd hs (h m)
  | supervised op atS vb hc => simp [runSupervised]
  | passThrough => simp
  | unrecognized => simp
  | parseFailed => simp

/-- Witness for C4: a supervised `backup` run whose child exits 5 makes the
wrapper exit 5. -/
theorem wrapper_exit_propagates_witness :
    (∀ m, scanArgs ["backup"] false false none ≠ ScanResult.indexError m)
    ∧ (wrapperRun ["backup"] [] 5 0 []).exit = 5 := by
  have hsup : scanArgs ["backup"] false false none
      = ScanResult.supervised "backup" false false none := by decide
  have hnot : ∀ m, scanArgs ["backup"] false false none ≠ ScanResult.indexError m := by
    intro m h
    rw [hsup] at h
    exact ScanResult.noConfusion h
  exact ⟨hnot, wrapper_exit_propagates ["backup"] [] 5 0 [] hnot⟩

/-- The five operation tokens that select supervision (line 221). -/
def OPS : List String := ["backup", "copy", "prune", "check", "restore"]

/-- The claim's notion of "the scan's first token not beginning with the
option-prefix character, after option/value consumption": the value tokens of
`-profile`, `-suppress` and `-comment` are consumed together with their
option, any other `-`-token is consumed alone, and the first remaining token
is returned. -/
def firstNonOption : List String → Option String
  | [] => none
  | a :: rest =>
    if a = "-profile" || a = "-suppress" || a = "-comment" then
      match rest with
      | [] => none
      | _ :: rest2 => firstNonOption rest2
    else
      match a.data with
      | [] => some a
      | c :: _ => if c = '-' then firstNonOption rest else some a

lemma scan_first_op_aux (n : Nat) : ∀ (args : List String), args.length ≤ n →
    ∀ (atS vb : Bool) (hc : Option (List Char)) (t : String),
      firstNonOption args = some t → t ∈ OPS →
      ∃ a v h, scanArgs args atS vb hc = ScanResult.supervised t a v h := by
  induction n with
  | zero =>
    intro args hlen atS vb hc t hf hops
    cases args with
    | nil => exact Option.noConfusion hf
    | cons a rest => simp at hlen
  | succ n ih =>
    intro args hlen atS vb hc t hf hops
    cases args with
    | nil => exact Option.noConfusion hf
    | cons a rest =>
      simp only [List.length_cons] at hlen
      by_cases hp1 : a = "-profile"
      · subst hp1
        cases rest with
        | nil => exact Option.noConfusion (show (none : Option String) = some t from hf)
        | cons v rest2 =>
          simp only [List.length_cons] at hlen
          exact ih rest2 (by omega) atS vb hc t
            (show firstNonOption rest2 = some t from hf) hops
      · by_cases hp2 : a = "-suppress"
        · subst hp2
          cases rest with
          | nil => exact Option.noConfusion (show (none : Option String) = some t from hf)
          | cons v rest2 =>
            simp only [List.length_cons] at hlen
            exact ih rest2 (by omega) atS vb hc t
              (show firstNonOption rest2 = some t from hf) hops
        · by_cases hp3 : a = "-comment"
          · subst hp3
            cases rest with
            | nil => exact Option.noConfusion (show (none : Option String) = some t from hf)
            | cons v rest2 =>
              simp only [List.length_cons] at hlen
              exact ih rest2 (by omega) _ _ _ t
                (show firstNonOption rest2 = some t from hf) hops
          · unfold firstNonOption at hf
            simp only [hp1, hp2, hp3, decide_False, Bool.or_self, Bool.false_eq_true,
              if_false] at hf
            cases hd : a.data with
            | nil =>
              rw [hd] at hf
              simp only [Option.some.injEq] at hf
              subst hf
              obtain ⟨ad⟩ := a
              simp only at hd
              subst hd
              simp [OPS] at hops
            | cons c cs =>
              rw [hd] at hf
              by_cases hdash : c = '-'
              · subst hdash
                simp only [if_pos rfl] at hf
                unfold scanArgs
                simp only [hp1, hp2, hp3, decide_False, Bool.or_self, Bool.false_eq_true,
                  if_false]
                rw [hd]
                simp only [if_pos rfl]
                exact ih rest (by omega) atS vb hc t hf hops
              · simp only [if_neg hdash, Option.some.injEq] at hf
                subst hf
                simp only [OPS, List.mem_cons, List.not_mem_nil, or_false] at hops
                rcases hops with h5 | h5 | h5 | h5 | h5 <;> subst h5 <;>
                  exact ⟨atS, vb, hc, by unfold scanArgs; simp⟩

/-- Claim C5: whenever the scan's first token not beginning with the
option-prefix character (after option/value consumption) is one of the five
operation tokens, the Argument Classifier selects supervision with exactly
that token as the operation — the scan `break`s there, so the flags in the
result are whatever the `-comment` options seen so far produced, and no later
token is examined. -/
theorem first_non_option_operation (args : List String) (atS vb : Bool)
    (hc : Option (List Char)) (t : String)
    (hf : firstNonOption args = some t) (hops : t ∈ OPS) :
    ∃ a v h, scanArgs args atS vb hc = ScanResult.supervised t a v h :=
  scan_first_op_aux args.length args le_rfl atS vb hc t hf hops

/-- Witness for C5: a global option followed by `backup`. -/
theorem first_non_option_operation_witness :
    ∃ a v h, scanArgs ["-log", "backup", "/src"] false false none
      = ScanResult.supervised "backup" a v h :=
  first_non_option_operation ["-log", "backup", "/src"] false false none "backup"
    (by decide) (by decide)

/-- Claim C6 counterexample: the line
`2024-01-01 00:00:00.000 INFO BACKUP_END ab)` is timestamped and literally of
the form `INFO <KEYWORD> <payload>` with `BACKUP_END` in the allow-list and a
payload ending in the non-whitespace character `)` — yet nothing is recorded,
because the capture group of the source regex is `(\w.+\w)$`: the payload
must END (and begin) with a word character, which `)` is not. -/
theorem stat_entry_nonword_payload :
    timestampMatch ("2024-01-01 00:00:00.000 INFO BACKUP_END ab)").data = true
    ∧ ("2024-01-01 00:00:00.000 INFO BACKUP_END ab)").data
      = ("2024-01-01 00:00:00.000 ").data ++ ("INFO").data ++ (" ").data
        ++ ("BACKUP_END").data ++ (" ").data ++ ("ab)").data
    ∧ ("BACKUP_END").data ∈ KEYWORDS
    ∧ isSpaceChar ')' = false
    ∧ infoStatMatch ("2024-01-01 00:00:00.000 INFO BACKUP_END ab)").data = none
    ∧ (processLine ⟨("backup").data, ("backup").data, false, false, none⟩ initState
        ("2024-01-01 00:00:00.000 INFO BACKUP_END ab)").data).stats = [] := by
  refine ⟨by decide, by decide, by decide, by decide, by decide, by decide⟩

/-- Claim C6 (amended): for a timestamped line on which the stats pattern
`\bINFO\s+(\w+)\s+(\w.+\w)$` matches — so the payload must begin AND end with
a word character (not merely a non-whitespace one) and run to the end of the
line — the payload is recorded as a `; `-prefixed stat fragment exactly when
the keyword is in the allow-list and neither suppression applies: keyword
`SNAPSHOT_CHECK` with a payload containing the (case-sensitive) phrase
`All chunks referenced by snapshot`, or keyword `SNAPSHOT_COPY` with a
payload that neither mentions `Chunks to copy:` nor matches
`Copied <digits> new chunks`. -/
theorem stat_entry_recording (cfg : Config) (st : RunState) (line kw payload : List Char)
    (ht : timestampMatch line = true)
    (hm : infoStatMatch line = some (kw, payload)) :
    (processLine cfg st line).stats =
      (if kw ∈ KEYWORDS
          ∧ ¬(kw = ("SNAPSHOT_CHECK").data
              ∧ hasSub ("All chunks referenced by snapshot").data payload = true)
          ∧ ¬(kw = ("SNAPSHOT_COPY").data ∧ copyRelevant payload = false)
        then st.stats ++ ("; ").data ++ payload
        else st.stats) := by
  rw [processLine_stats]
  unfold lineStatFrag statFragOf
  rw [hm, ht]
  simp only [if_true]
  split_ifs <;> simp_all [List.append_assoc]

/-- Witness for C6 (amended) at a recorded payload: keyword `BACKUP_END`,
payload `abc`. -/
theorem stat_entry_recording_witness :
    (processLine ⟨("backup").data, ("backup").data, false, false, none⟩ initState
        ("2024-01-01 00:00:00.000 INFO BACKUP_END abc").data).stats = ("; abc").data := by
  have h := stat_entry_recording ⟨("backup").data, ("backup").data, false, false, none⟩
    initState ("2024-01-01 00:00:00.000 INFO BACKUP_END abc").data
    ("BACKUP_END").data ("abc").data (by decide) (by decide)
  rw [h]
  decide

lemma errors_zero_of_no_match (cfg : Config) (lines : List (List Char))
    (h : ∀ l ∈ lines, timestampMatch l = true → errorMatch l = false) :
    (processLines cfg initState lines).errors = 0 := by
  rw [processLines_errors]
  simp only [initState, Nat.zero_add]
  refine List.sum_eq_zero ?_
  intro x hx
  simp only [List.mem_map] at hx
  obtain ⟨l, hl, rfl⟩ := hx
  unfold lineErrCount
  by_cases ht : timestampMatch l = true
  · simp [ht, h l hl ht]
  · simp only [Bool.not_eq_true] at ht
    simp [ht]

lemma warnings_zero_of_no_match (cfg : Config) (lines : List (List Char))
    (h : ∀ l ∈ lines, timestampMatch l = true → warnMatch l = false) :
    (processLines cfg initState lines).warnings = 0 := by
  rw [processLines_warnings]
  simp only [initState, Nat.zero_add]
  refine List.sum_eq_zero ?_
  intro x hx
  simp only [List.mem_map] at hx
  obtain ⟨l, hl, rfl⟩ := hx
  unfold lineWarnCount
  by_cases ht : timestampMatch l = true
  · simp [ht, h l hl ht]
  · simp only [Bool.not_eq_true] at ht
    simp [ht]

/-- Claim C7: with a healthchecks URL configured, a child exit code of 100
and no timestamped line matching the WARN or ERROR patterns, the resolved
severity is 2 (ERROR), exactly one ping is posted to `<url>/2` carrying the
final message, the wrapper exits with status 100 whatever the ping transport
does, and if the transport fails (nonzero curl status) a severity-1
(WARNING) `ping failed` log entry is emitted. -/
theorem healthcheck_error_ping (url : List Char) (cfg : Config) (lines : List (List Char))
    (pingRc : Int) (pingErr : List Char)
    (hurl : cfg.healthchecks = some url)
    (hlines : ∀ l ∈ lines, timestampMatch l = true
      → warnMatch l = false ∧ errorMatch l = false) :
    (runSupervised cfg lines 100 pingRc pingErr).severity = 2
    ∧ (runSupervised cfg lines 100 pingRc pingErr).pings
        = [(url ++ ("/2").data, (runSupervised cfg lines 100 pingRc pingErr).message)]
    ∧ (runSupervised cfg lines 100 pingRc pingErr).exit = 100
    ∧ (pingRc ≠ 0 →
        (("[duplicacy ").data ++ cfg.operation ++ ("] ").data ++ url ++ ("/2").data
            ++ (" ping failed, ").data ++ pingErr, 1)
          ∈ (runSupervised cfg lines 100 pingRc pingErr).logs) := by
  have he : (processLines cfg initState lines).errors = 0 :=
    errors_zero_of_no_match cfg lines (fun l hl ht => (hlines l hl ht).2)
  have hw : (processLines cfg initState lines).warnings = 0 :=
    warnings_zero_of_no_match cfg lines (fun l hl ht => (hlines l hl ht).1)
  have hsev : resolveSeverity (some 100) 0 0 = 2 := by decide
  have htwo : natRepr 2 = [Char.ofNat 50] := by decide
  refine ⟨?_, ?_, ?_, ?_⟩
  · simp only [runSupervised, he, hw, hsev]
  · simp only [runSupervised, he, hw, hsev, hurl]
    simp [htwo, List.append_assoc]
  · simp only [runSupervised]
  · intro hrc
    simp only [runSupervised, he, hw, hsev, hurl, if_pos hrc]
    simp [htwo, List.append_assoc]

/-- Witness for C7: healthchecks URL `https://hc.io/p`, no output lines,
child exit 100, failing ping transport (curl status 22). -/
theorem healthcheck_error_ping_witness :
    (runSupervised ⟨("backup").data, ("backup").data, false, false,
        some ("https://hc.io/p").data⟩ [] 100 22 ("curl: (22)").data).severity = 2
    ∧ (runSupervised ⟨("backup").data, ("backup").data, false, false,
        some ("https://hc.io/p").data⟩ [] 100 22 ("curl: (22)").data).exit = 100
    ∧ (("[duplicacy ").data ++ ("backup").data ++ ("] ").data ++ ("https://hc.io/p").data
        ++ ("/2").data ++ (" ping failed, ").data ++ ("curl: (22)").data, 1)
      ∈ (runSupervised ⟨("backup").data, ("backup").data, false, false,
          some ("https://hc.io/p").data⟩ [] 100 22 ("curl: (22)").data).logs := by
  have h := healthcheck_error_ping ("https://hc.io/p").data
    ⟨("backup").data, ("backup").data, false, false, some ("https://hc.io/p").data⟩
    [] 22 ("curl: (22)").data rfl (by simp)
  exact ⟨h.1, h.2.2.1, h.2.2.2 (by decide)⟩

/-- Claim C10 counterexample: in `["backup", "-comment"]` the token
`-comment` IS the last element of the argument list, yet no `IndexError` is
raised and the wrapper does not exit with status 1 — the scan stops at the
operation token `backup` before ever reaching `-comment`, the child is
spawned, and the wrapper exits with the child's status (7 here). -/
theorem comment_after_operation_no_error :
    scanArgs ["backup", "-comment"] false false none
      = ScanResult.supervised "backup" false false none
    ∧ (wrapperRun ["backup", "-comment"] [] 7 0 []).mode = Mode.supervised ("backup").data
    ∧ (wrapperRun ["backup", "-comment"] [] 7 0 []).exit = 7
    ∧ (wrapperRun ["backup", "-comment"] [] 7 0 []).ranTool = true := by
  refine ⟨by decide, by decide, by decide, by decide⟩

/-- Claim C10 (amended): when the option scan actually reaches a `-comment`
token with no following value — e.g. when `-comment` is the last element and
every earlier token was consumed as an option or option value — the access
`sys.argv[i + 1]` raises an uncaught `IndexError` (CPython message
`list index out of range`); the top-level handler then logs a single
ERROR-severity (2) message carrying that exception message and the wrapper
exits with status 1 without ever spawning the child process.  The theorem
covers every scan `IndexError` with its own message `m` — the only other
source, an empty-string token at line 219 (`sys.argv[i][0]`), aborts
identically but with CPython's `string index out of range`.  (A `-comment`
positioned after the operation token is never reached and raises nothing.) -/
theorem comment_without_value_aborts (args : List String) (lines : List (List Char))
    (te pingRc : Int) (pingErr : List Char) (m : List Char)
    (h : scanArgs args false false none = ScanResult.indexError m) :
    (wrapperRun args lines te pingRc pingErr).exit = 1
    ∧ (wrapperRun args lines te pingRc pingErr).ranTool = false
    ∧ (wrapperRun args lines te pingRc pingErr).mode = Mode.aborted
    ∧ (wrapperRun args lines te pingRc pingErr).logs
      = [(("[duplicacy ?] ").data ++ (String.intercalate " " args).data
          ++ (": ").data ++ m, 2)] := by
  unfold wrapperRun
  simp [h]

/-- Witness for C10 (amended): the argument list `["-comment"]`, whose scan
raises the list `IndexError`; the logged message ends in CPython's
`list index out of range`. -/
theorem comment_without_value_aborts_witness :
    scanArgs ["-comment"] false false none
      = ScanResult.indexError ("list index out of range").data
    ∧ (wrapperRun ["-comment"] [] 0 0 []).exit = 1
    ∧ (wrapperRun ["-comment"] [] 0 0 []).ranTool = false
    ∧ (wrapperRun ["-comment"] [] 0 0 []).logs
      = [(("[duplicacy ?] -comment: list index out of range").data, 2)] :=
  ⟨by decide,
    (comment_without_value_aborts ["-comment"] [] 0 0 []
      ("list index out of range").data (by decide)).1,
    (comment_without_value_aborts ["-comment"] [] 0 0 []
      ("list index out of range").data (by decide)).2.1,
    ((comment_without_value_aborts ["-comment"] [] 0 0 []
      ("list index out of range").data (by decide)).2.2.2).trans (by decide)⟩
